import Mathlib

/-!
Shallow embedding of `CombatSystem.ts` (the combat engine of the
iron-gauntlet demo): the combat configuration constants, the attack
catalog, the mutable `CombatState` aggregate, the seeded
linear-congruential RNG, and the engine operations (`tick` and the
command methods).  JavaScript numbers are modelled as `Int`/`Nat` for
the integer-valued fields and as `ℚ` for the fractional stagger meter
and RNG outputs.  The RNG update runs in IEEE-754 doubles in JS; since
all its quantities are integer-valued the arithmetic is modelled exactly
as integer functions, with each double operation rounding its result to
53 significant bits (`fl53`) before the `& 0x7fffffff` mask keeps the
low 31 bits (`% 2^31`).  `Date.now()` at construction is modelled as an
explicit `now` parameter.
-/

namespace CombatSys

/-! ### Configuration constants (COMBAT_CONFIG) -/

def TICKS_PER_SECOND : ℚ := 60
def PARRY_WINDOW_FRAMES : Int := 15
def IMPACT_DELAY_FRAMES : Int := 25
def BLOCK_WINDOW_FRAMES : Int := 30
def BLOCK_STAGGER : ℚ := 5
def PARRY_STAGGER : ℚ := 25
def STAGGER_MAX : ℚ := 100
def STAGGER_DECAY_PER_SECOND : ℚ := 1/2
def VULNERABILITY_DURATION_FRAMES : Int := 180
def SAFE_ATTACK_DAMAGE : Int := 1
def CRITICAL_DAMAGE : Int := 3
def ZONE_LEFT : Int := 0
def ZONE_CENTER : Int := 1
def ZONE_RIGHT : Int := 2

/-! ### Data model -/

inductive GameMode where
  | standard
  | practice
deriving DecidableEq, Repr

structure Attack where
  id : String
  zone : Int
  windupFrames : Int
  activeFrames : Int
  recoveryFrames : Int
  damage : Int
  isBlocking : Bool
deriving DecidableEq, Repr

inductive InputKind where
  | block
  | attack
  | parry
deriving DecidableEq, Repr

structure InputEvent where
  frame : Nat
  kind : InputKind
  zone : Option Int
  accuracy : Option ℚ
deriving DecidableEq, Repr

structure CombatState where
  currentFrame : Nat
  playerAlive : Bool
  playerShieldZone : Int
  playerAttacking : Bool
  playerAttackFrame : Nat
  bossHP : Int
  bossMaxHP : Int
  bossStagger : ℚ
  bossVulnerable : Bool
  bossVulnerableFrame : Nat
  bossDesperation : Bool
  bossCurrentAttack : Option Attack
  bossAttackStartFrame : Nat
  bossAttackHitProcessed : Bool
  perfectParries : Nat
  blocksPerformed : Nat
  damageDealt : Int
  deathCount : Nat
  runStartTime : Int
  mode : GameMode
  enabledAttacks : List String
deriving DecidableEq, Repr

def RUST_WARDEN_ATTACKS : List Attack :=
  [ { id := "bash_left", zone := ZONE_LEFT, windupFrames := 120,
      activeFrames := 40, recoveryFrames := 30, damage := 1, isBlocking := true },
    { id := "bash_center", zone := ZONE_CENTER, windupFrames := 100,
      activeFrames := 40, recoveryFrames := 30, damage := 1, isBlocking := true },
    { id := "bash_right", zone := ZONE_RIGHT, windupFrames := 120,
      activeFrames := 40, recoveryFrames := 30, damage := 1, isBlocking := true },
    { id := "flail_sweep", zone := ZONE_CENTER, windupFrames := 90,
      activeFrames := 45, recoveryFrames := 60, damage := 1, isBlocking := false },
    { id := "desperation_slam", zone := ZONE_CENTER, windupFrames := 90,
      activeFrames := 30, recoveryFrames := 120, damage := 1, isBlocking := false } ]

/-- The engine object: the `CombatState` aggregate plus the private fields
of the `CombatSystem` class (`inputLog`, `_runSeed`, the RNG closure's
captured `state`, and `forcedAttackQueue`). -/
structure Engine where
  state : CombatState
  inputLog : List InputEvent
  runSeed : Int
  rngState : Int
  forcedAttackQueue : List String
deriving DecidableEq, Repr

/-! ### Seeded RNG (createSeededRandom) -/

/-- Round a natural number to 53 significant bits, to nearest with ties to
even, exactly as IEEE-754 binary64 stores an integer-valued result: numbers
below 2^53 are exact; above, the value is rounded to the nearest multiple
of `2^k` where `k = log2 n - 52` is the exponent excess. -/
def fl53nat (n : Nat) : Nat :=
  if n < 2 ^ 53 then n
  else
    let k := n.log2 - 52
    let q := n / 2 ^ k
    let r := n % 2 ^ k
    if 2 * r < 2 ^ k then q * 2 ^ k
    else if 2 ^ k < 2 * r then (q + 1) * 2 ^ k
    else if q % 2 = 0 then q * 2 ^ k else (q + 1) * 2 ^ k

/-- IEEE-754 binary64 rounding of an integer value (sign-symmetric, as the
round-to-nearest-even mode is).  Faithful for |x| below the binary64
overflow threshold 2^1024, which covers every LCG state (all below 2^31
after one update) and every product arising from a seed below about 2^993;
beyond that JS overflows to Infinity, whose ToInt32 is 0, likewise inside
all the ranges proved here. -/
def fl53 (x : Int) : Int :=
  if 0 ≤ x then (fl53nat x.natAbs : Int) else -(fl53nat x.natAbs : Int)

/-- One call of the RNG closure:
`state = (state * 1103515245 + 12345) & 0x7fffffff`.
JS evaluates `state * 1103515245` and the subsequent `+ 12345` in IEEE-754
doubles, so each intermediate integer result is rounded to 53 significant
bits (`fl53`) - for states above 8162278 the product exceeds 2^53 and the
rounding genuinely changes the low bits that the mask keeps.  `ToInt32`
followed by `& 0x7fffffff` on an integer-valued double is `% 2^31`. -/
def rngNext (s : Int) : Int :=
  fl53 (fl53 (s * 1103515245) + 12345) % 2147483648

/-- The value returned by one call of the RNG closure starting from LCG
state `s`: the updated state divided by `0x7fffffff`, modelled as the exact
rational quotient.  The JS double division rounds this quotient, but the
rounding cannot move it across 0 or 1: the masked numerator never reaches
`0x7fffffff` (proved below), so the exact quotient is at least
`1/0x7fffffff` (about 4.7e-10) away from 1, far beyond the half-ulp
2^(-54) of doubles near 1. -/
def rngValue (s : Int) : ℚ := ((rngNext s : Int) : ℚ) / 2147483647

/-- The LCG state after `n` calls of the RNG closure seeded with `seed`. -/
def rngStateAfter (seed : Int) : Nat → Int
  | 0 => seed
  | n + 1 => rngNext (rngStateAfter seed n)

/-- The `n`-th value (0-based) produced by the RNG closure seeded with `seed`. -/
def rngOutput (seed : Int) (n : Nat) : ℚ := rngValue (rngStateAfter seed n)

/-! ### Construction -/

/-- The `CombatState` literal built by the constructor; `now` models the
`Date.now()` call that initializes `runStartTime`. -/
def initState (bossMaxHP : Int) (mode : GameMode) (now : Int) : CombatState :=
  { currentFrame := 0
    playerAlive := true
    playerShieldZone := ZONE_CENTER
    playerAttacking := false
    playerAttackFrame := 0
    bossHP := bossMaxHP
    bossMaxHP := bossMaxHP
    bossStagger := 0
    bossVulnerable := false
    bossVulnerableFrame := 0
    bossDesperation := false
    bossCurrentAttack := none
    bossAttackStartFrame := 0
    bossAttackHitProcessed := false
    perfectParries := 0
    blocksPerformed := 0
    damageDealt := 0
    deathCount := 0
    runStartTime := now
    mode := mode
    enabledAttacks := RUST_WARDEN_ATTACKS.map (fun a => a.id) }

/-- Constructor `new CombatSystem(seed, bossMaxHP, mode)` at wall-clock time `now`. -/
def initEngine (seed : Int) (bossMaxHP : Int) (mode : GameMode) (now : Int) : Engine :=
  { state := initState bossMaxHP mode now
    inputLog := []
    runSeed := seed
    rngState := seed
    forcedAttackQueue := [] }

/-- Snapshot query `getState()` (a copy in JS; in the embedding the value itself). -/
def getState (e : Engine) : CombatState := e.state

/-! ### Private state-transition helpers -/

def triggerVulnerability (s : CombatState) : CombatState :=
  { s with bossVulnerable := true
           bossVulnerableFrame := s.currentFrame
           bossStagger := 0
           bossCurrentAttack := none }

def dealDamageToBoss (damage : Int) (s : CombatState) : CombatState :=
  { s with bossHP := s.bossHP - damage
           damageDealt := s.damageDealt + damage }

def handleParry (accuracy : ℚ) (s : CombatState) : CombatState :=
  let multiplier : ℚ := if accuracy > 9/10 then 3/2 else 1
  let s1 := { s with perfectParries := s.perfectParries + 1
                     bossStagger := s.bossStagger + PARRY_STAGGER * multiplier }
  let s2 := if s1.bossStagger ≥ STAGGER_MAX then triggerVulnerability s1 else s1
  if s2.bossDesperation then dealDamageToBoss CRITICAL_DAMAGE s2 else s2

def handleBlock (s : CombatState) : CombatState :=
  let s1 := { s with blocksPerformed := s.blocksPerformed + 1
                     bossStagger := s.bossStagger + BLOCK_STAGGER }
  if s1.bossStagger ≥ STAGGER_MAX then triggerVulnerability s1 else s1

def handlePlayerDeath (s : CombatState) : CombatState :=
  let s1 := { s with deathCount := s.deathCount + 1 }
  if s1.mode = GameMode.practice then s1 else { s1 with playerAlive := false }

/-- Attack start `executeAttack`; takes an `Option Attack` because the random selection
index can be out of range (when the RNG value is exactly 1), in which case
the JS code stores `undefined`. -/
def executeAttack (a : Option Attack) (s : CombatState) : CombatState :=
  { s with bossCurrentAttack := a
           bossAttackStartFrame := s.currentFrame
           bossAttackHitProcessed := false }

def startBossAttack (e : Engine) : Engine :=
  let available := RUST_WARDEN_ATTACKS.filter
    (fun a => e.state.mode = GameMode.standard ∨ a.id ∈ e.state.enabledAttacks)
  if available.length = 0 then e
  else
    let r := rngNext e.rngState
    let idx := (⌊((r : ℚ) / 2147483647) * available.length⌋).toNat
    { e with rngState := r
             state := executeAttack available[idx]? e.state }

def processBossAI (e : Engine) : Engine :=
  if e.state.bossCurrentAttack.isSome ∨ e.state.bossVulnerable then e
  else
    match e.forcedAttackQueue with
    | forcedId :: rest =>
      let e1 : Engine := { e with forcedAttackQueue := rest }
      match RUST_WARDEN_ATTACKS.find? (fun a => a.id = forcedId) with
      | some attack => { e1 with state := executeAttack (some attack) e1.state }
      | none =>
        let r := rngNext e1.rngState
        let e2 := { e1 with rngState := r }
        if (r : ℚ) / 2147483647 < 3/200 then startBossAttack e2 else e2
    | [] =>
      let r := rngNext e.rngState
      let e2 := { e with rngState := r }
      if (r : ℚ) / 2147483647 < 3/200 then startBossAttack e2 else e2

def processAttackCollision (s : CombatState) : CombatState :=
  match s.bossCurrentAttack with
  | none => s
  | some attack =>
    let framesSinceStart : Int := (s.currentFrame : Int) - (s.bossAttackStartFrame : Int)
    let totalFrames : Int := attack.windupFrames + attack.activeFrames + attack.recoveryFrames
    let s1 :=
      if s.bossAttackHitProcessed then s
      else
        let attackFrame := framesSinceStart - attack.windupFrames
        if attackFrame = IMPACT_DELAY_FRAMES then
          let hit := if s.playerShieldZone = attack.zone ∧ attack.isBlocking
                     then handleBlock s else handlePlayerDeath s
          { hit with bossAttackHitProcessed := true }
        else s
    if framesSinceStart ≥ totalFrames then { s1 with bossCurrentAttack := none } else s1

def processPlayerAttack (s : CombatState) : CombatState :=
  if ¬ s.playerAttacking then s
  else
    let framesSinceAttack : Int := (s.currentFrame : Int) - (s.playerAttackFrame : Int)
    let s1 :=
      if framesSinceAttack = 10 then
        if s.bossVulnerable then dealDamageToBoss SAFE_ATTACK_DAMAGE s else s
      else s
    if framesSinceAttack ≥ 20 then { s1 with playerAttacking := false } else s1

def staggerDecayStep (s : CombatState) : CombatState :=
  if ¬ s.bossVulnerable then
    { s with bossStagger := max 0 (s.bossStagger - STAGGER_DECAY_PER_SECOND / TICKS_PER_SECOND) }
  else s

def processVulnerability (s : CombatState) : CombatState :=
  if ¬ s.bossVulnerable then s
  else
    let framesInVulnerability : Int := (s.currentFrame : Int) - (s.bossVulnerableFrame : Int)
    if framesInVulnerability ≥ VULNERABILITY_DURATION_FRAMES then
      { s with bossVulnerable := false, bossDesperation := false }
    else s

/-! ### Public operations -/

/-- Frame increment `this.state.currentFrame++` at the top of `tick()`. -/
def incFrameE (e : Engine) : Engine :=
  { e with state := { e.state with currentFrame := e.state.currentFrame + 1 } }

def collisionE (e : Engine) : Engine := { e with state := processAttackCollision e.state }

def playerAttackE (e : Engine) : Engine := { e with state := processPlayerAttack e.state }

def decayE (e : Engine) : Engine := { e with state := staggerDecayStep e.state }

def vulnE (e : Engine) : Engine := { e with state := processVulnerability e.state }

/-- Tick `tick()`: frame increment, boss AI, collision, player attack, stagger
decay, vulnerability timer - in the source's statement order. -/
def tick (e : Engine) : Engine :=
  if ¬ e.state.playerAlive then e
  else vulnE (decayE (playerAttackE (collisionE (processBossAI (incFrameE e)))))

def moveShield (zone : Int) (e : Engine) : Engine :=
  if ¬ e.state.playerAlive then e
  else
    { e with state := { e.state with playerShieldZone := zone }
             inputLog := e.inputLog ++
               [{ frame := e.state.currentFrame, kind := InputKind.block,
                  zone := some zone, accuracy := none }] }

def attemptParry (zone : Int) (accuracy : ℚ) (e : Engine) : Engine × Bool :=
  if ¬ e.state.playerAlive then (e, false)
  else
    let e1 : Engine :=
      { e with inputLog := e.inputLog ++
          [{ frame := e.state.currentFrame, kind := InputKind.parry,
             zone := some zone, accuracy := some accuracy }] }
    match e1.state.bossCurrentAttack with
    | none => (e1, false)
    | some attack =>
      if e1.state.bossAttackHitProcessed then (e1, false)
      else
        let framesSinceStart : Int :=
          (e1.state.currentFrame : Int) - (e1.state.bossAttackStartFrame : Int)
        if framesSinceStart ≥ attack.windupFrames - 45 ∧
           framesSinceStart < attack.windupFrames + attack.activeFrames then
          if zone = attack.zone then
            ({ e1 with state :=
                 { (handleParry accuracy e1.state) with bossAttackHitProcessed := true } },
             true)
          else (e1, false)
        else (e1, false)

def playerAttack (e : Engine) : Engine :=
  if ¬ e.state.playerAlive ∨ e.state.playerAttacking then e
  else if ¬ e.state.bossVulnerable then e
  else
    { e with state := { e.state with playerAttacking := true
                                     playerAttackFrame := e.state.currentFrame }
             inputLog := e.inputLog ++
               [{ frame := e.state.currentFrame, kind := InputKind.attack,
                  zone := none, accuracy := none }] }

/-- JS `Set.add`: no duplicate, insertion order preserved. -/
def addId (l : List String) (id : String) : List String :=
  if id ∈ l then l else l ++ [id]

def setPracticeAttack (attackId : String) (enabled : Bool) (e : Engine) : Engine :=
  if e.state.mode ≠ GameMode.practice then e
  else if enabled then
    { e with state := { e.state with enabledAttacks := addId e.state.enabledAttacks attackId } }
  else
    { e with state := { e.state with
        enabledAttacks := e.state.enabledAttacks.filter (fun x => x ≠ attackId) } }

def forceAttack (attackId : String) (e : Engine) : Engine :=
  if e.state.mode ≠ GameMode.practice then e
  else { e with forcedAttackQueue := e.forcedAttackQueue ++ [attackId] }

/-! ### Step relation and reachability -/

/-- One driver interaction: a `tick()` or one command method call. -/
inductive Step where
  | tick
  | moveShield (zone : Int)
  | attemptParry (zone : Int) (accuracy : ℚ)
  | playerAttack
  | setPracticeAttack (attackId : String) (enabled : Bool)
  | forceAttack (attackId : String)
deriving DecidableEq, Repr

def applyStep : Step → Engine → Engine
  | Step.tick, e => tick e
  | Step.moveShield z, e => moveShield z e
  | Step.attemptParry z a, e => (attemptParry z a e).1
  | Step.playerAttack, e => playerAttack e
  | Step.setPracticeAttack id b, e => setPracticeAttack id b e
  | Step.forceAttack id, e => forceAttack id e

def runSteps (e : Engine) : List Step → Engine
  | [] => e
  | s :: rest => runSteps (applyStep s e) rest

/-- Engines reachable from some construction by tick/command calls. -/
inductive Reachable : Engine → Prop where
  | init (seed bossMaxHP : Int) (mode : GameMode) (now : Int) :
      Reachable (initEngine seed bossMaxHP mode now)
  | step (s : Step) {e : Engine} : Reachable e → Reachable (applyStep s e)

/-! ### Auxiliary definitions used by the theorems -/

/-- Zero out the wall-clock construction timestamp of a snapshot. -/
def stripTime (s : CombatState) : CombatState := { s with runStartTime := 0 }

/-- The map `stripTime` lifted to the whole engine. -/
def stripTimeE (e : Engine) : Engine := { e with state := stripTime e.state }

/-- The seed-0 standard-mode run driven by ticks alone: the first tick's RNG
roll (12345 / 0x7fffffff < 0.015) starts an attack and the second roll picks
index 3, `flail_sweep` (windup 90, unblockable), whose impact at frame
1 + 90 + 25 = 116 kills the player. -/
def deathRun : Engine :=
  runSteps (initEngine 0 10 GameMode.standard 0) (List.replicate 116 Step.tick)

/-- Checkpoint 60 ticks into the seed-0 run: from tick 1 (when
`flail_sweep` starts) until its impact, only `currentFrame` changes. -/
def deathRunMid : Engine :=
  { state := { currentFrame := 60
               playerAlive := true
               playerShieldZone := 1
               playerAttacking := false
               playerAttackFrame := 0
               bossHP := 10
               bossMaxHP := 10
               bossStagger := 0
               bossVulnerable := false
               bossVulnerableFrame := 0
               bossDesperation := false
               bossCurrentAttack := some { id := "flail_sweep"
                                           zone := 1
                                           windupFrames := 90
                                           activeFrames := 45
                                           recoveryFrames := 60
                                           damage := 1
                                           isBlocking := false }
               bossAttackStartFrame := 1
               bossAttackHitProcessed := false
               perfectParries := 0
               blocksPerformed := 0
               damageDealt := 0
               deathCount := 0
               runStartTime := 0
               mode := GameMode.standard
               enabledAttacks := ["bash_left", "bash_center", "bash_right",
                                  "flail_sweep", "desperation_slam"] }
    inputLog := []
    runSeed := 0
    rngState := 1406932606
    forcedAttackQueue := [] }

/-- The seed-0 run's engine at frame `n` of the flail_sweep windup/active
phase: identical to the 60-tick checkpoint except for the frame counter
(used to keep each kernel evaluation of the trajectory short). -/
def cruisingAt (n : Nat) : Engine :=
  { deathRunMid with state := { deathRunMid.state with currentFrame := n } }

/-- A concrete engine with the `bash_center` attack in flight (started at
frame 0, now at frame 60), used to witness the parry/block theorems. -/
def midSwingEngine : Engine :=
  { initEngine 5 10 GameMode.standard 0 with
    state := { initState 10 GameMode.standard 0 with
               currentFrame := 60
               bossCurrentAttack := some { id := "bash_center"
                                           zone := 1
                                           windupFrames := 100
                                           activeFrames := 40
                                           recoveryFrames := 30
                                           damage := 1
                                           isBlocking := true }
               bossAttackStartFrame := 0 } }

/-- A concrete engine whose player is dead (used to witness the dead-player
clauses of the command theorems). -/
def deadEngine : Engine :=
  { initEngine 5 10 GameMode.standard 0 with
    state := { initState 10 GameMode.standard 0 with playerAlive := false } }

/-! ### Basic lemmas about `runSteps` and `Reachable` -/

lemma runSteps_append (e : Engine) (l1 l2 : List Step) :
    runSteps e (l1 ++ l2) = runSteps (runSteps e l1) l2 := by
  induction l1 generalizing e with
  | nil => rfl
  | cons s rest ih => simp [runSteps, ih]

lemma reachable_runSteps {e : Engine} (h : Reachable e) (l : List Step) :
    Reachable (runSteps e l) := by
  induction l generalizing e with
  | nil => exact h
  | cons s rest ih => exact ih (Reachable.step s h)

/-! ### C7: constructor validation -/

/-- C7: the claim says a non-positive boss max-HP fails fast at construction
with a validation error.  The constructor performs no validation at all: at
`bossMaxHP = 0` it produces a live engine instance whose boss is already at
0 HP (and hence already counts as defeated). -/
theorem construction_accepts_nonpositive_maxHP :
    (initEngine 42 0 GameMode.standard 0).state.bossMaxHP = 0 ∧
    (initEngine 42 0 GameMode.standard 0).state.bossHP = 0 ∧
    (initEngine 42 0 GameMode.standard 0).state.playerAlive = true := by
  refine ⟨rfl, rfl, rfl⟩

/-! ### C9: RNG output range -/

lemma fl53nat_small {n : Nat} (h : n < 2 ^ 53) : fl53nat n = n := by
  unfold fl53nat
  rw [if_pos h]

lemma fl53nat_big {n : Nat} (h : 2 ^ 53 ≤ n) :
    2 ∣ fl53nat n ∧ 2 ^ 53 ≤ fl53nat n := by
  unfold fl53nat
  rw [if_neg (by omega)]
  have hn0 : n ≠ 0 := by positivity
  have hlog : 53 ≤ n.log2 := (Nat.le_log2 hn0).mpr h
  have hk1 : 1 ≤ n.log2 - 52 := by omega
  have hn_ge : 2 ^ n.log2 ≤ n := Nat.log2_self_le hn0
  have hq : 2 ^ 52 ≤ n / 2 ^ (n.log2 - 52) := by
    rw [Nat.le_div_iff_mul_le (Nat.pos_pow_of_pos _ (by norm_num))]
    calc 2 ^ 52 * 2 ^ (n.log2 - 52) = 2 ^ n.log2 := by rw [← pow_add]; congr 1; omega
      _ ≤ n := hn_ge
  have hkpow : 2 ∣ 2 ^ (n.log2 - 52) := dvd_pow_self 2 (by omega)
  have hmag : ∀ m : Nat, 2 ^ 52 ≤ m → 2 ^ 53 ≤ m * 2 ^ (n.log2 - 52) := by
    intro m hm
    calc 2 ^ 53 = 2 ^ 52 * 2 ^ 1 := by norm_num
      _ ≤ m * 2 ^ (n.log2 - 52) :=
        Nat.mul_le_mul hm (Nat.pow_le_pow_right (by norm_num) hk1)
  dsimp only
  split
  · exact ⟨Dvd.dvd.mul_left hkpow _, hmag _ hq⟩
  · split
    · exact ⟨Dvd.dvd.mul_left hkpow _, hmag _ (by omega)⟩
    · split
      · exact ⟨Dvd.dvd.mul_left hkpow _, hmag _ hq⟩
      · exact ⟨Dvd.dvd.mul_left hkpow _, hmag _ (by omega)⟩

lemma fl53_small {x : Int} (h : x.natAbs < 2 ^ 53) : fl53 x = x := by
  unfold fl53
  rw [fl53nat_small h]
  split
  · omega
  · omega

lemma fl53_big {x : Int} (h : 2 ^ 53 ≤ x.natAbs) :
    2 ∣ fl53 x ∧ 2 ^ 53 ≤ (fl53 x).natAbs := by
  obtain ⟨hd, hm⟩ := fl53nat_big h
  unfold fl53
  split
  · constructor <;> omega
  · constructor <;> omega

lemma seedBoundContra (s K : Int)
    (h1 : s = 2147483648 * K + 2147471302 * 1857678181)
    (h2 : s ≤ 8162278) (h3 : -8162278 ≤ s) : False := by omega

/-- The masked 31-bit state never equals `0x7fffffff`: any state whose
product overflows 53 bits yields an even rounded result (and an even or
tiny sum), while exact products would require a seed congruent to
230538014 mod 2^31, which is too large to keep the product exact. -/
lemma rngNext_ne_top (s : Int) : rngNext s ≠ 2147483647 := by
  unfold rngNext
  obtain ⟨x, hxe⟩ : ∃ x, x = s * 1103515245 := ⟨_, rfl⟩
  rw [← hxe]
  by_cases hx : x.natAbs < 2 ^ 53
  · rw [fl53_small hx]
    by_cases hy : (x + 12345).natAbs < 2 ^ 53
    · rw [fl53_small hy]
      intro hcon
      have hdvd : (2147483648 : Int) ∣ (x - 2147471302) := by
        clear hxe hx hy
        omega
      obtain ⟨k, hk0⟩ := hdvd
      have hk : x = 2147483648 * k + 2147471302 := by
        clear hxe hx hy hcon
        omega
      have key : x * 1857678181 = s + 2147483648 * (s * 954594553) := by rw [hxe]; ring
      have h2 : s = 2147483648 * (k * 1857678181 - s * 954594553)
          + 2147471302 * 1857678181 := by
        linear_combination 1857678181 * hk - key
      rw [hxe] at hx
      have hs1 : s ≤ 8162278 := by
        clear hxe hy hcon hk0 hk key h2
        omega
      have hs2 : -8162278 ≤ s := by
        clear hxe hy hcon hk0 hk key h2 hs1
        omega
      exact seedBoundContra s _ h2 hs1 hs2
    · obtain ⟨hd, _⟩ := fl53_big (show 2 ^ 53 ≤ (x + 12345).natAbs by omega)
      clear hxe
      omega
  · obtain ⟨hdu, hmu⟩ := fl53_big (show 2 ^ 53 ≤ x.natAbs by omega)
    clear hxe
    by_cases hy : (fl53 x + 12345).natAbs < 2 ^ 53
    · rw [fl53_small hy]
      omega
    · obtain ⟨hd2, _⟩ := fl53_big (show 2 ^ 53 ≤ (fl53 x + 12345).natAbs by omega)
      omega

lemma rngNext_bounds (s : Int) : 0 ≤ rngNext s ∧ rngNext s < 2147483648 := by
  unfold rngNext
  exact ⟨Int.emod_nonneg _ (by norm_num), Int.emod_lt_of_pos _ (by norm_num)⟩

/-- C9: every RNG output lies in the half-open interval [0, 1).  The masked
LCG state stays in [0, 2^31 - 1] by construction, and under the IEEE-double
model of the update it never equals 0x7fffffff (`rngNext_ne_top`), so the
quotient by 0x7fffffff is at least 0 and strictly below 1. -/
theorem rng_output_range (seed : Int) (n : Nat) :
    0 ≤ rngOutput seed n ∧ rngOutput seed n < 1 := by
  have h1 := rngNext_bounds (rngStateAfter seed n)
  have h2 := rngNext_ne_top (rngStateAfter seed n)
  unfold rngOutput rngValue
  constructor
  · exact div_nonneg (by exact_mod_cast h1.1) (by norm_num)
  · rw [div_lt_one (by norm_num)]
    exact_mod_cast (show rngNext (rngStateAfter seed n) < 2147483647 by omega)

/-! ### C8: parry input logging -/

/-- C8 (amended): while the player is alive, every `attemptParry` call
appends a parry-type input event carrying the current frame, zone and
accuracy to the input log, regardless of outcome; a call made after the
player has died returns false without logging anything. -/
theorem attemptParry_always_logs (e : Engine) (zone : Int) (accuracy : ℚ)
    (halive : e.state.playerAlive = true) :
    (attemptParry zone accuracy e).1.inputLog =
      e.inputLog ++ [{ frame := e.state.currentFrame, kind := InputKind.parry,
                       zone := some zone, accuracy := some accuracy }] := by
  unfold attemptParry
  split
  · next h => simp [halive] at h
  · dsimp only
    repeat' split
    all_goals rfl

/-- Witness for C8's amended theorem at a freshly constructed engine. -/
theorem attemptParry_always_logs_witness :
    (attemptParry 2 1 (initEngine 3 10 GameMode.standard 0)).1.inputLog =
      [{ frame := 0, kind := InputKind.parry, zone := some 2, accuracy := some 1 }] :=
  attemptParry_always_logs (initEngine 3 10 GameMode.standard 0) 2 1 rfl

/-! ### Field-preservation lemmas for the tick sub-steps -/

lemma processBossAI_of_attack {e : Engine}
    (h : e.state.bossCurrentAttack.isSome) : processBossAI e = e := by
  unfold processBossAI
  rw [if_pos (Or.inl h)]

lemma startBossAttack_state (e : Engine) :
    (startBossAttack e).state = e.state ∨
    ∃ a, (startBossAttack e).state = executeAttack a e.state := by
  unfold startBossAttack
  dsimp only
  by_cases hc : (List.filter
      (fun a => decide (e.state.mode = GameMode.standard ∨ a.id ∈ e.state.enabledAttacks))
      RUST_WARDEN_ATTACKS).length = 0
  · rw [if_pos hc]
    exact Or.inl rfl
  · rw [if_neg hc]
    exact Or.inr ⟨_, rfl⟩

lemma processBossAI_state_cases (e : Engine) :
    (processBossAI e).state = e.state ∨
    ((∃ a, (processBossAI e).state = executeAttack a e.state) ∧
      e.state.bossVulnerable = false) := by
  unfold processBossAI
  split
  · exact Or.inl rfl
  next h =>
    have hv : e.state.bossVulnerable = false := by
      rcases Bool.eq_false_or_eq_true e.state.bossVulnerable with h' | h'
      · exact absurd (Or.inr h') h
      · exact h'
    split
    · split
      · exact Or.inr ⟨⟨_, rfl⟩, hv⟩
      · dsimp only
        split
        · rcases startBossAttack_state _ with h' | ⟨a, h'⟩
          · exact Or.inl h'
          · exact Or.inr ⟨⟨a, h'⟩, hv⟩
        · exact Or.inl rfl
    · dsimp only
      split
      · rcases startBossAttack_state _ with h' | ⟨a, h'⟩
        · exact Or.inl h'
        · exact Or.inr ⟨⟨a, h'⟩, hv⟩
      · exact Or.inl rfl

lemma executeAttack_untouched (a : Option Attack) (s : CombatState) :
    (executeAttack a s).currentFrame = s.currentFrame ∧
    (executeAttack a s).playerAlive = s.playerAlive ∧
    (executeAttack a s).bossStagger = s.bossStagger ∧
    (executeAttack a s).bossHP = s.bossHP ∧
    (executeAttack a s).damageDealt = s.damageDealt ∧
    (executeAttack a s).bossMaxHP = s.bossMaxHP ∧
    (executeAttack a s).bossVulnerable = s.bossVulnerable :=
  ⟨rfl, rfl, rfl, rfl, rfl, rfl, rfl⟩

lemma processAttackCollision_currentFrame (s : CombatState) :
    (processAttackCollision s).currentFrame = s.currentFrame := by
  unfold processAttackCollision handleBlock handlePlayerDeath triggerVulnerability
  repeat' (first | split | dsimp only)
  all_goals rfl

lemma processPlayerAttack_untouched (s : CombatState) :
    (processPlayerAttack s).currentFrame = s.currentFrame ∧
    (processPlayerAttack s).playerAlive = s.playerAlive ∧
    (processPlayerAttack s).bossStagger = s.bossStagger ∧
    (processPlayerAttack s).blocksPerformed = s.blocksPerformed ∧
    (processPlayerAttack s).deathCount = s.deathCount ∧
    (processPlayerAttack s).bossAttackHitProcessed = s.bossAttackHitProcessed ∧
    (processPlayerAttack s).bossVulnerable = s.bossVulnerable ∧
    (processPlayerAttack s).bossCurrentAttack = s.bossCurrentAttack ∧
    (processPlayerAttack s).bossMaxHP = s.bossMaxHP := by
  unfold processPlayerAttack dealDamageToBoss
  repeat' (first | split | dsimp only)
  all_goals exact ⟨rfl, rfl, rfl, rfl, rfl, rfl, rfl, rfl, rfl⟩

lemma staggerDecayStep_untouched (s : CombatState) :
    (staggerDecayStep s).currentFrame = s.currentFrame ∧
    (staggerDecayStep s).playerAlive = s.playerAlive ∧
    (staggerDecayStep s).bossHP = s.bossHP ∧
    (staggerDecayStep s).damageDealt = s.damageDealt ∧
    (staggerDecayStep s).blocksPerformed = s.blocksPerformed ∧
    (staggerDecayStep s).deathCount = s.deathCount ∧
    (staggerDecayStep s).bossAttackHitProcessed = s.bossAttackHitProcessed ∧
    (staggerDecayStep s).bossVulnerable = s.bossVulnerable ∧
    (staggerDecayStep s).bossCurrentAttack = s.bossCurrentAttack ∧
    (staggerDecayStep s).bossMaxHP = s.bossMaxHP := by
  unfold staggerDecayStep
  repeat' (first | split | dsimp only)
  all_goals exact ⟨rfl, rfl, rfl, rfl, rfl, rfl, rfl, rfl, rfl, rfl⟩

lemma processVulnerability_untouched (s : CombatState) :
    (processVulnerability s).currentFrame = s.currentFrame ∧
    (processVulnerability s).playerAlive = s.playerAlive ∧
    (processVulnerability s).bossStagger = s.bossStagger ∧
    (processVulnerability s).bossHP = s.bossHP ∧
    (processVulnerability s).damageDealt = s.damageDealt ∧
    (processVulnerability s).blocksPerformed = s.blocksPerformed ∧
    (processVulnerability s).deathCount = s.deathCount ∧
    (processVulnerability s).bossAttackHitProcessed = s.bossAttackHitProcessed ∧
    (processVulnerability s).bossCurrentAttack = s.bossCurrentAttack ∧
    (processVulnerability s).bossMaxHP = s.bossMaxHP := by
  unfold processVulnerability
  repeat' (first | split | dsimp only)
  all_goals exact ⟨rfl, rfl, rfl, rfl, rfl, rfl, rfl, rfl, rfl, rfl⟩

lemma processBossAI_currentFrame (e : Engine) :
    (processBossAI e).state.currentFrame = e.state.currentFrame := by
  rcases processBossAI_state_cases e with h | ⟨⟨a, h⟩, _⟩
  · rw [h]
  · rw [h]; exact (executeAttack_untouched a e.state).1

lemma tick_dead {e : Engine} (h : e.state.playerAlive = false) : tick e = e := by
  unfold tick
  rw [if_pos (by simp [h])]

lemma tick_currentFrame {e : Engine} (h : e.state.playerAlive = true) :
    (tick e).state.currentFrame = e.state.currentFrame + 1 := by
  unfold tick
  rw [if_neg (by simp [h])]
  show (processVulnerability (staggerDecayStep (processPlayerAttack (processAttackCollision
      (processBossAI (incFrameE e)).state)))).currentFrame = e.state.currentFrame + 1
  rw [(processVulnerability_untouched _).1, (staggerDecayStep_untouched _).1,
      (processPlayerAttack_untouched _).1, processAttackCollision_currentFrame,
      processBossAI_currentFrame]
  rfl

/-! ### C6: frame advance -/

/-- C6: `tick()` increments `currentFrame` by exactly 1 while the player is
alive, is a complete no-op once the player is dead, and no command method
ever changes `currentFrame`. -/
theorem tick_advances_frame (e : Engine) :
    (e.state.playerAlive = true → (tick e).state.currentFrame = e.state.currentFrame + 1) ∧
    (e.state.playerAlive = false → tick e = e) ∧
    (∀ s : Step, s ≠ Step.tick →
      (applyStep s e).state.currentFrame = e.state.currentFrame) := by
  refine ⟨fun h => tick_currentFrame h, fun h => tick_dead h, fun s hs => ?_⟩
  cases s with
  | tick => exact absurd rfl hs
  | moveShield z =>
    show (moveShield z e).state.currentFrame = _
    unfold moveShield
    split <;> rfl
  | attemptParry z a =>
    show (attemptParry z a e).1.state.currentFrame = _
    unfold attemptParry handleParry triggerVulnerability dealDamageToBoss
    repeat' (first | split | dsimp only)
    all_goals rfl
  | playerAttack =>
    show (playerAttack e).state.currentFrame = _
    unfold playerAttack
    repeat' (first | split | dsimp only)
    all_goals rfl
  | setPracticeAttack id b =>
    show (setPracticeAttack id b e).state.currentFrame = _
    unfold setPracticeAttack
    repeat' (first | split | dsimp only)
    all_goals rfl
  | forceAttack id =>
    show (forceAttack id e).state.currentFrame = _
    unfold forceAttack
    split <;> rfl

/-- Witness for C6 combining a live engine, a dead engine, and a command. -/
theorem tick_advances_frame_witness :
    (tick (initEngine 3 10 GameMode.standard 0)).state.currentFrame = 1 ∧
    tick deadEngine = deadEngine ∧
    (applyStep (Step.moveShield 0) (initEngine 3 10 GameMode.standard 0)).state.currentFrame = 0 :=
  ⟨(tick_advances_frame (initEngine 3 10 GameMode.standard 0)).1 rfl,
   (tick_advances_frame deadEngine).2.1 rfl,
   (tick_advances_frame (initEngine 3 10 GameMode.standard 0)).2.2
     (Step.moveShield 0) (by decide)⟩

/-! ### C4: parry window -/

/-- C4: for an in-flight attack with windup 100 and active 40 whose impact is
unprocessed, while the player is alive, `attemptParry` with the attack's zone
succeeds exactly when the elapsed frames since the attack started lie in
[55, 140), for every accuracy value. -/
theorem attemptParry_window (e : Engine) (atk : Attack) (accuracy : ℚ)
    (halive : e.state.playerAlive = true)
    (hatk : e.state.bossCurrentAttack = some atk)
    (hw : atk.windupFrames = 100)
    (ha : atk.activeFrames = 40)
    (hproc : e.state.bossAttackHitProcessed = false) :
    ((attemptParry atk.zone accuracy e).2 = true ↔
      (55 ≤ (e.state.currentFrame : Int) - (e.state.bossAttackStartFrame : Int) ∧
       (e.state.currentFrame : Int) - (e.state.bossAttackStartFrame : Int) < 140)) := by
  unfold attemptParry
  rw [if_neg (by simp [halive])]
  dsimp only
  rw [show ({ e with inputLog := e.inputLog ++
      [{ frame := e.state.currentFrame, kind := InputKind.parry,
         zone := some atk.zone, accuracy := some accuracy }] } : Engine).state
      = e.state from rfl]
  rw [hatk]
  dsimp only
  rw [if_neg (by simp [hproc]), hw, ha]
  split
  next hwin =>
    rw [if_pos rfl]
    simp only [true_iff]
    omega
  next hwin =>
    simp only [Bool.false_eq_true, false_iff]
    omega

/-- Witness for C4 at a concrete mid-windup engine (elapsed = 60 frames). -/
theorem attemptParry_window_witness :
    (attemptParry 1 (1 : ℚ) midSwingEngine).2 = true := by
  have h := attemptParry_window midSwingEngine
    { id := "bash_center", zone := 1, windupFrames := 100, activeFrames := 40,
      recoveryFrames := 30, damage := 1, isBlocking := true }
    1 rfl rfl rfl rfl rfl
  exact h.mpr (by decide)

/-! ### C10: HP accounting invariant -/

/-- Damage accounting: the boss's remaining HP plus cumulative damage dealt
always equals the (never-mutated) max HP. -/
def HpAcct (s : CombatState) : Prop :=
  s.bossHP + s.damageDealt = s.bossMaxHP

lemma hpAcct_dealDamageToBoss {s : CombatState} (d : Int) (h : HpAcct s) :
    HpAcct (dealDamageToBoss d s) := by
  unfold HpAcct dealDamageToBoss at *
  dsimp only
  omega

lemma hpAcct_triggerVulnerability {s : CombatState} (h : HpAcct s) :
    HpAcct (triggerVulnerability s) := h

lemma hpAcct_handleParry {s : CombatState} (a : ℚ) (h : HpAcct s) :
    HpAcct (handleParry a s) := by
  unfold handleParry
  repeat' (first | split | dsimp only)
  all_goals first
    | exact h
    | exact hpAcct_dealDamageToBoss _ h
    | exact hpAcct_dealDamageToBoss _ (hpAcct_triggerVulnerability h)

lemma hpAcct_handleBlock {s : CombatState} (h : HpAcct s) :
    HpAcct (handleBlock s) := by
  unfold handleBlock
  repeat' (first | split | dsimp only)
  all_goals first | exact h | exact hpAcct_triggerVulnerability h

lemma hpAcct_handlePlayerDeath {s : CombatState} (h : HpAcct s) :
    HpAcct (handlePlayerDeath s) := by
  unfold handlePlayerDeath
  repeat' (first | split | dsimp only)
  all_goals exact h

lemma hpAcct_executeAttack {s : CombatState} (a : Option Attack) (h : HpAcct s) :
    HpAcct (executeAttack a s) := h

lemma hpAcct_processAttackCollision {s : CombatState} (h : HpAcct s) :
    HpAcct (processAttackCollision s) := by
  unfold processAttackCollision
  repeat' (first | split | dsimp only)
  all_goals first
    | exact h
    | exact hpAcct_handleBlock h
    | exact hpAcct_handlePlayerDeath h

lemma hpAcct_processPlayerAttack {s : CombatState} (h : HpAcct s) :
    HpAcct (processPlayerAttack s) := by
  unfold processPlayerAttack
  repeat' (first | split | dsimp only)
  all_goals first | exact h | exact hpAcct_dealDamageToBoss _ h

lemma hpAcct_staggerDecayStep {s : CombatState} (h : HpAcct s) :
    HpAcct (staggerDecayStep s) := by
  unfold staggerDecayStep
  repeat' (first | split | dsimp only)
  all_goals exact h

lemma hpAcct_processVulnerability {s : CombatState} (h : HpAcct s) :
    HpAcct (processVulnerability s) := by
  unfold processVulnerability
  repeat' (first | split | dsimp only)
  all_goals exact h

lemma hpAcct_processBossAI {e : Engine} (h : HpAcct e.state) :
    HpAcct (processBossAI e).state := by
  rcases processBossAI_state_cases e with hc | ⟨⟨a, hc⟩, _⟩
  · rw [hc]; exact h
  · rw [hc]; exact hpAcct_executeAttack a h

lemma hpAcct_applyStep {e : Engine} (s : Step) (h : HpAcct e.state) :
    HpAcct (applyStep s e).state := by
  cases s with
  | tick =>
    show HpAcct (tick e).state
    unfold tick
    split
    · exact h
    · exact hpAcct_processVulnerability (hpAcct_staggerDecayStep
        (hpAcct_processPlayerAttack (hpAcct_processAttackCollision
          (hpAcct_processBossAI h))))
  | moveShield z =>
    show HpAcct (moveShield z e).state
    unfold moveShield
    repeat' (first | split | dsimp only)
    all_goals exact h
  | attemptParry z a =>
    show HpAcct (attemptParry z a e).1.state
    unfold attemptParry
    repeat' (first | split | dsimp only)
    all_goals first
      | exact h
      | exact hpAcct_handleParry a h
  | playerAttack =>
    show HpAcct (playerAttack e).state
    unfold playerAttack
    repeat' (first | split | dsimp only)
    all_goals exact h
  | setPracticeAttack id b =>
    show HpAcct (setPracticeAttack id b e).state
    unfold setPracticeAttack
    repeat' (first | split | dsimp only)
    all_goals exact h
  | forceAttack id =>
    show HpAcct (forceAttack id e).state
    unfold forceAttack
    repeat' (first | split | dsimp only)
    all_goals exact h

/-- C10: in every reachable engine state, `bossHP + damageDealt = bossMaxHP`;
damage flows only through `dealDamageToBoss`, which moves the same amount
from HP to the dealt counter, and `bossMaxHP` is never written after
construction. -/
theorem reachable_hp_accounting (e : Engine) (h : Reachable e) :
    (getState e).bossHP + (getState e).damageDealt = (getState e).bossMaxHP := by
  induction h with
  | init seed maxHP mode now => simp [getState, initEngine, initState]
  | step s hr ih => exact hpAcct_applyStep s ih

/-- Witness for C10 at a freshly constructed engine. -/
theorem reachable_hp_accounting_witness :
    (getState (initEngine 9 10 GameMode.standard 0)).bossHP +
      (getState (initEngine 9 10 GameMode.standard 0)).damageDealt =
    (getState (initEngine 9 10 GameMode.standard 0)).bossMaxHP :=
  reachable_hp_accounting (initEngine 9 10 GameMode.standard 0)
    (Reachable.init 9 10 GameMode.standard 0)

/-! ### C2: stagger bound invariant -/

/-- The stagger meter stays in [0, STAGGER_MAX]. -/
def StaggerInv (s : CombatState) : Prop :=
  0 ≤ s.bossStagger ∧ s.bossStagger ≤ STAGGER_MAX

lemma staggerInv_triggerVulnerability (s : CombatState) :
    StaggerInv (triggerVulnerability s) := by
  unfold StaggerInv triggerVulnerability STAGGER_MAX
  norm_num

lemma staggerInv_handleParry {s : CombatState} (a : ℚ) (h0 : 0 ≤ s.bossStagger) :
    StaggerInv (handleParry a s) := by
  unfold StaggerInv handleParry dealDamageToBoss triggerVulnerability
  simp only [STAGGER_MAX, PARRY_STAGGER]
  repeat' (first | split | dsimp only)
  all_goals constructor <;> linarith

lemma staggerInv_handleBlock {s : CombatState} (h0 : 0 ≤ s.bossStagger) :
    StaggerInv (handleBlock s) := by
  unfold StaggerInv handleBlock triggerVulnerability
  simp only [STAGGER_MAX, BLOCK_STAGGER]
  repeat' (first | split | dsimp only)
  all_goals constructor <;> linarith

lemma staggerInv_handlePlayerDeath {s : CombatState} (h : StaggerInv s) :
    StaggerInv (handlePlayerDeath s) := by
  unfold StaggerInv handlePlayerDeath at *
  repeat' (first | split | dsimp only)
  all_goals exact h

lemma staggerInv_of_stagger_eq (u : CombatState) {t : CombatState}
    (ht : t.bossStagger = u.bossStagger) (h : StaggerInv u) : StaggerInv t := by
  unfold StaggerInv at *
  rw [ht]
  exact h

lemma staggerInv_processAttackCollision {s : CombatState} (h : StaggerInv s) :
    StaggerInv (processAttackCollision s) := by
  unfold processAttackCollision
  repeat' (first | split | dsimp only)
  all_goals first
    | exact staggerInv_of_stagger_eq (handleBlock s) rfl (staggerInv_handleBlock h.1)
    | exact staggerInv_of_stagger_eq (handlePlayerDeath s) rfl (staggerInv_handlePlayerDeath h)
    | exact staggerInv_of_stagger_eq s rfl h

lemma staggerInv_processPlayerAttack {s : CombatState} (h : StaggerInv s) :
    StaggerInv (processPlayerAttack s) := by
  have h1 := (processPlayerAttack_untouched s).2.2.1
  unfold StaggerInv at *
  rw [h1]
  exact h

lemma staggerInv_staggerDecayStep {s : CombatState} (h : StaggerInv s) :
    StaggerInv (staggerDecayStep s) := by
  unfold StaggerInv staggerDecayStep at *
  simp only [STAGGER_MAX, STAGGER_DECAY_PER_SECOND, TICKS_PER_SECOND] at *
  repeat' (first | split | dsimp only)
  · constructor
    · exact le_max_left 0 _
    · exact max_le (by norm_num) (by linarith [h.2])
  · exact h

lemma staggerInv_processVulnerability {s : CombatState} (h : StaggerInv s) :
    StaggerInv (processVulnerability s) := by
  have h1 := (processVulnerability_untouched s).2.2.1
  unfold StaggerInv at *
  rw [h1]
  exact h

lemma staggerInv_processBossAI {e : Engine} (h : StaggerInv e.state) :
    StaggerInv (processBossAI e).state := by
  rcases processBossAI_state_cases e with hc | ⟨⟨a, hc⟩, _⟩
  · rw [hc]; exact h
  · rw [hc]; exact h

lemma staggerInv_applyStep {e : Engine} (s : Step) (h : StaggerInv e.state) :
    StaggerInv (applyStep s e).state := by
  cases s with
  | tick =>
    show StaggerInv (tick e).state
    unfold tick
    split
    · exact h
    · exact staggerInv_processVulnerability (staggerInv_staggerDecayStep
        (staggerInv_processPlayerAttack (staggerInv_processAttackCollision
          (staggerInv_processBossAI h))))
  | moveShield z =>
    show StaggerInv (moveShield z e).state
    unfold moveShield
    repeat' (first | split | dsimp only)
    all_goals exact h
  | attemptParry z a =>
    show StaggerInv (attemptParry z a e).1.state
    unfold attemptParry
    repeat' (first | split | dsimp only)
    all_goals first
      | exact h
      | exact staggerInv_handleParry a h.1
  | playerAttack =>
    show StaggerInv (playerAttack e).state
    unfold playerAttack
    repeat' (first | split | dsimp only)
    all_goals exact h
  | setPracticeAttack id b =>
    show StaggerInv (setPracticeAttack id b e).state
    unfold setPracticeAttack
    repeat' (first | split | dsimp only)
    all_goals exact h
  | forceAttack id =>
    show StaggerInv (forceAttack id e).state
    unfold forceAttack
    repeat' (first | split | dsimp only)
    all_goals exact h

/-- C2: in every reachable engine state the stagger meter satisfies
`0 ≤ bossStagger ≤ STAGGER_MAX`: additions that reach `STAGGER_MAX` trigger
vulnerability (which resets stagger to 0) and the per-tick decay is floored
at 0. -/
theorem reachable_stagger_bounded (e : Engine) (h : Reachable e) :
    0 ≤ (getState e).bossStagger ∧ (getState e).bossStagger ≤ STAGGER_MAX := by
  induction h with
  | init seed maxHP mode now =>
    refine ⟨le_refl 0, ?_⟩
    show (0 : ℚ) ≤ STAGGER_MAX
    norm_num [STAGGER_MAX]
  | step s hr ih => exact staggerInv_applyStep s ih

/-- Witness for C2 at a freshly constructed engine. -/
theorem reachable_stagger_bounded_witness :
    0 ≤ (getState (initEngine 11 10 GameMode.standard 0)).bossStagger ∧
    (getState (initEngine 11 10 GameMode.standard 0)).bossStagger ≤ STAGGER_MAX :=
  reachable_stagger_bounded (initEngine 11 10 GameMode.standard 0)
    (Reachable.init 11 10 GameMode.standard 0)

/-! ### C3: vulnerability excludes an in-flight attack -/

/-- While the boss is vulnerable no attack is in flight. -/
def VulnExcl (s : CombatState) : Prop :=
  s.bossVulnerable = true → s.bossCurrentAttack = none

lemma vulnExcl_triggerVulnerability (s : CombatState) :
    VulnExcl (triggerVulnerability s) := fun _ => rfl

lemma vulnExcl_handleParry {s : CombatState} (a : ℚ) (h : VulnExcl s) :
    VulnExcl (handleParry a s) := by
  unfold handleParry dealDamageToBoss triggerVulnerability
  repeat' (first | split | dsimp only)
  all_goals intro hv
  all_goals first | rfl | exact h hv

lemma vulnExcl_handleBlock {s : CombatState} (h : VulnExcl s) :
    VulnExcl (handleBlock s) := by
  unfold handleBlock triggerVulnerability
  repeat' (first | split | dsimp only)
  all_goals intro hv
  all_goals first | rfl | exact h hv

lemma vulnExcl_handlePlayerDeath {s : CombatState} (h : VulnExcl s) :
    VulnExcl (handlePlayerDeath s) := by
  unfold handlePlayerDeath
  repeat' (first | split | dsimp only)
  all_goals exact h

lemma vulnExcl_processAttackCollision {s : CombatState} (h : VulnExcl s) :
    VulnExcl (processAttackCollision s) := by
  unfold processAttackCollision
  repeat' (first | split | dsimp only)
  all_goals intro hv
  all_goals first
    | rfl
    | exact h hv
    | exact vulnExcl_handleBlock h hv
    | exact vulnExcl_handlePlayerDeath h hv

lemma vulnExcl_processPlayerAttack {s : CombatState} (h : VulnExcl s) :
    VulnExcl (processPlayerAttack s) := by
  have hv := (processPlayerAttack_untouched s).2.2.2.2.2.2.1
  have ha := (processPlayerAttack_untouched s).2.2.2.2.2.2.2.1
  unfold VulnExcl at *
  rw [hv, ha]
  exact h

lemma vulnExcl_staggerDecayStep {s : CombatState} (h : VulnExcl s) :
    VulnExcl (staggerDecayStep s) := by
  have hv := (staggerDecayStep_untouched s).2.2.2.2.2.2.2.1
  have ha := (staggerDecayStep_untouched s).2.2.2.2.2.2.2.2.1
  unfold VulnExcl at *
  rw [hv, ha]
  exact h

lemma vulnExcl_processVulnerability {s : CombatState} (h : VulnExcl s) :
    VulnExcl (processVulnerability s) := by
  unfold processVulnerability
  repeat' (first | split | dsimp only)
  all_goals first | exact h | (intro hv; cases hv)

lemma vulnExcl_processBossAI {e : Engine} (h : VulnExcl e.state) :
    VulnExcl (processBossAI e).state := by
  rcases processBossAI_state_cases e with hc | ⟨⟨a, hc⟩, hv⟩
  · rw [hc]; exact h
  · rw [hc]
    intro hvul
    have : (executeAttack a e.state).bossVulnerable = e.state.bossVulnerable := rfl
    rw [this, hv] at hvul
    cases hvul

lemma vulnExcl_applyStep {e : Engine} (s : Step) (h : VulnExcl e.state) :
    VulnExcl (applyStep s e).state := by
  cases s with
  | tick =>
    show VulnExcl (tick e).state
    unfold tick
    split
    · exact h
    · exact vulnExcl_processVulnerability (vulnExcl_staggerDecayStep
        (vulnExcl_processPlayerAttack (vulnExcl_processAttackCollision
          (vulnExcl_processBossAI h))))
  | moveShield z =>
    show VulnExcl (moveShield z e).state
    unfold moveShield
    repeat' (first | split | dsimp only)
    all_goals exact h
  | attemptParry z a =>
    show VulnExcl (attemptParry z a e).1.state
    unfold attemptParry
    repeat' (first | split | dsimp only)
    all_goals first
      | exact h
      | (intro hv; exact vulnExcl_handleParry a h hv)
  | playerAttack =>
    show VulnExcl (playerAttack e).state
    unfold playerAttack
    repeat' (first | split | dsimp only)
    all_goals exact h
  | setPracticeAttack id b =>
    show VulnExcl (setPracticeAttack id b e).state
    unfold setPracticeAttack
    repeat' (first | split | dsimp only)
    all_goals exact h
  | forceAttack id =>
    show VulnExcl (forceAttack id e).state
    unfold forceAttack
    repeat' (first | split | dsimp only)
    all_goals exact h

/-- C3: in every reachable engine state, either the boss is not vulnerable
or no boss attack is in flight (`triggerVulnerability` clears any in-flight
attack and the boss AI never starts one while vulnerable). -/
theorem reachable_vulnerable_excludes_attack (e : Engine) (h : Reachable e) :
    (getState e).bossVulnerable = false ∨ (getState e).bossCurrentAttack = none := by
  have hx : VulnExcl e.state := by
    induction h with
    | init seed maxHP mode now => intro hv; cases hv
    | step s hr ih => exact vulnExcl_applyStep s ih
  rcases Bool.eq_false_or_eq_true e.state.bossVulnerable with hb | hb
  · exact Or.inr (hx hb)
  · exact Or.inl hb

/-- Witness for C3 at a freshly constructed engine. -/
theorem reachable_vulnerable_excludes_attack_witness :
    (getState (initEngine 13 10 GameMode.standard 0)).bossVulnerable = false ∨
    (getState (initEngine 13 10 GameMode.standard 0)).bossCurrentAttack = none :=
  reachable_vulnerable_excludes_attack (initEngine 13 10 GameMode.standard 0)
    (Reachable.init 13 10 GameMode.standard 0)

/-! ### C5: impact resolution -/

lemma tick_eq_of_attack {e : Engine} (halive : e.state.playerAlive = true)
    (h : e.state.bossCurrentAttack.isSome) :
    tick e = { e with state := processVulnerability (staggerDecayStep (processPlayerAttack
      (processAttackCollision { e.state with currentFrame := e.state.currentFrame + 1 }))) } := by
  unfold tick
  rw [if_neg (by simp [halive])]
  rw [processBossAI_of_attack (show (incFrameE e).state.bossCurrentAttack.isSome from h)]
  rfl

lemma handleBlock_effects (s : CombatState) :
    (handleBlock s).blocksPerformed = s.blocksPerformed + 1 ∧
    (handleBlock s).playerAlive = s.playerAlive ∧
    (handleBlock s).deathCount = s.deathCount := by
  unfold handleBlock triggerVulnerability
  repeat' (first | split | dsimp only)
  all_goals exact ⟨rfl, rfl, rfl⟩

lemma handlePlayerDeath_effects (s : CombatState) :
    (handlePlayerDeath s).deathCount = s.deathCount + 1 ∧
    (handlePlayerDeath s).blocksPerformed = s.blocksPerformed ∧
    (s.mode = GameMode.practice → (handlePlayerDeath s).playerAlive = s.playerAlive) ∧
    (s.mode = GameMode.standard → (handlePlayerDeath s).playerAlive = false) := by
  unfold handlePlayerDeath
  dsimp only
  split
  next hm => exact ⟨rfl, rfl, fun _ => rfl, fun hst => by rw [hst] at hm; cases hm⟩
  next hm => exact ⟨rfl, rfl, fun hpr => absurd hpr hm, fun _ => rfl⟩

lemma processAttackCollision_impact {s : CombatState} {atk : Attack}
    (hatk : s.bossCurrentAttack = some atk)
    (hproc : s.bossAttackHitProcessed = false)
    (himp : (s.currentFrame : Int) - (s.bossAttackStartFrame : Int) - atk.windupFrames = 25) :
    processAttackCollision s =
      (if ((s.currentFrame : Int) - (s.bossAttackStartFrame : Int)) ≥
           atk.windupFrames + atk.activeFrames + atk.recoveryFrames
       then { (if s.playerShieldZone = atk.zone ∧ atk.isBlocking
               then handleBlock s else handlePlayerDeath s) with
              bossAttackHitProcessed := true, bossCurrentAttack := none }
       else { (if s.playerShieldZone = atk.zone ∧ atk.isBlocking
               then handleBlock s else handlePlayerDeath s) with
              bossAttackHitProcessed := true }) := by
  unfold processAttackCollision
  rw [hatk]
  dsimp only
  simp only [hproc, Bool.false_eq_true, if_false, himp, IMPACT_DELAY_FRAMES]
  norm_num

/-- C5: with a blockable CENTER attack of windup 100 in flight and its hit
unprocessed, the tick that brings the elapsed frames to 100 + 25 = 125
resolves the impact (marking it processed so it never resolves again): a
CENTER shield blocks (blocksPerformed + 1, player stays alive); a LEFT
shield lets the hit land (death in standard mode; in practice mode only
deathCount increments and the player stays alive). -/
theorem tick_impact_resolution (e : Engine) (atk : Attack)
    (halive : e.state.playerAlive = true)
    (hatk : e.state.bossCurrentAttack = some atk)
    (hblk : atk.isBlocking = true)
    (hzone : atk.zone = ZONE_CENTER)
    (hw : atk.windupFrames = 100)
    (hproc : e.state.bossAttackHitProcessed = false)
    (himpact : (e.state.currentFrame : Int) + 1 - (e.state.bossAttackStartFrame : Int) = 125) :
    ((tick e).state.bossAttackHitProcessed = true) ∧
    (e.state.playerShieldZone = ZONE_CENTER →
      (tick e).state.blocksPerformed = e.state.blocksPerformed + 1 ∧
      (tick e).state.playerAlive = true) ∧
    (e.state.playerShieldZone = ZONE_LEFT →
      (tick e).state.deathCount = e.state.deathCount + 1 ∧
      (e.state.mode = GameMode.standard → (tick e).state.playerAlive = false) ∧
      (e.state.mode = GameMode.practice → (tick e).state.playerAlive = true)) := by
  have hiso : e.state.bossCurrentAttack.isSome := by rw [hatk]; rfl
  rw [tick_eq_of_attack halive hiso]
  dsimp only
  generalize hgen : ({ e.state with currentFrame := e.state.currentFrame + 1 } :
      CombatState) = t
  have ht_attack : t.bossCurrentAttack = some atk := by rw [← hgen]; exact hatk
  have ht_proc : t.bossAttackHitProcessed = false := by rw [← hgen]; exact hproc
  have ht_frame : t.currentFrame = e.state.currentFrame + 1 := by rw [← hgen]
  have ht_start : t.bossAttackStartFrame = e.state.bossAttackStartFrame := by rw [← hgen]
  have ht_shield : t.playerShieldZone = e.state.playerShieldZone := by rw [← hgen]
  have ht_blocks : t.blocksPerformed = e.state.blocksPerformed := by rw [← hgen]
  have ht_alive : t.playerAlive = e.state.playerAlive := by rw [← hgen]
  have ht_deaths : t.deathCount = e.state.deathCount := by rw [← hgen]
  have ht_mode : t.mode = e.state.mode := by rw [← hgen]
  have hcol := processAttackCollision_impact ht_attack ht_proc
    (by rw [ht_frame, ht_start, hw]; push_cast; push_cast at himpact; omega)
  rw [hcol]
  dsimp only
  have htail_proc : ∀ u : CombatState,
      (processVulnerability (staggerDecayStep (processPlayerAttack u))).bossAttackHitProcessed
        = u.bossAttackHitProcessed := fun u => by
    rw [(processVulnerability_untouched _).2.2.2.2.2.2.2.1,
        (staggerDecayStep_untouched _).2.2.2.2.2.2.1,
        (processPlayerAttack_untouched _).2.2.2.2.2.1]
  have htail_alive : ∀ u : CombatState,
      (processVulnerability (staggerDecayStep (processPlayerAttack u))).playerAlive
        = u.playerAlive := fun u => by
    rw [(processVulnerability_untouched _).2.1, (staggerDecayStep_untouched _).2.1,
        (processPlayerAttack_untouched _).2.1]
  have htail_blocks : ∀ u : CombatState,
      (processVulnerability (staggerDecayStep (processPlayerAttack u))).blocksPerformed
        = u.blocksPerformed := fun u => by
    rw [(processVulnerability_untouched _).2.2.2.2.2.1,
        (staggerDecayStep_untouched _).2.2.2.2.1,
        (processPlayerAttack_untouched _).2.2.2.1]
  have htail_deaths : ∀ u : CombatState,
      (processVulnerability (staggerDecayStep (processPlayerAttack u))).deathCount
        = u.deathCount := fun u => by
    rw [(processVulnerability_untouched _).2.2.2.2.2.2.1,
        (staggerDecayStep_untouched _).2.2.2.2.2.1,
        (processPlayerAttack_untouched _).2.2.2.2.1]
  refine ⟨?_, ?_, ?_⟩
  · split
    · rw [htail_proc]
    · rw [htail_proc]
  · intro hshield
    have hcond : t.playerShieldZone = atk.zone ∧ atk.isBlocking = true :=
      ⟨by rw [ht_shield, hshield, hzone], hblk⟩
    rw [if_pos hcond]
    constructor
    · split
      · rw [htail_blocks]
        show (handleBlock t).blocksPerformed = e.state.blocksPerformed + 1
        rw [(handleBlock_effects t).1, ht_blocks]
      · rw [htail_blocks]
        show (handleBlock t).blocksPerformed = e.state.blocksPerformed + 1
        rw [(handleBlock_effects t).1, ht_blocks]
    · split
      · rw [htail_alive]
        show (handleBlock t).playerAlive = true
        rw [(handleBlock_effects t).2.1, ht_alive, halive]
      · rw [htail_alive]
        show (handleBlock t).playerAlive = true
        rw [(handleBlock_effects t).2.1, ht_alive, halive]
  · intro hshield
    have hcond : ¬ (t.playerShieldZone = atk.zone ∧ atk.isBlocking = true) := by
      intro hc
      have h1 := hc.1
      rw [ht_shield, hshield, hzone] at h1
      exact absurd h1 (by decide)
    rw [if_neg hcond]
    refine ⟨?_, ?_, ?_⟩
    · split
      · rw [htail_deaths]
        show (handlePlayerDeath t).deathCount = e.state.deathCount + 1
        rw [(handlePlayerDeath_effects t).1, ht_deaths]
      · rw [htail_deaths]
        show (handlePlayerDeath t).deathCount = e.state.deathCount + 1
        rw [(handlePlayerDeath_effects t).1, ht_deaths]
    · intro hmode
      have hmode' : t.mode = GameMode.standard := by rw [ht_mode, hmode]
      split
      · rw [htail_alive]
        show (handlePlayerDeath t).playerAlive = false
        exact (handlePlayerDeath_effects t).2.2.2 hmode'
      · rw [htail_alive]
        show (handlePlayerDeath t).playerAlive = false
        exact (handlePlayerDeath_effects t).2.2.2 hmode'
    · intro hmode
      have hmode' : t.mode = GameMode.practice := by rw [ht_mode, hmode]
      split
      · rw [htail_alive]
        show (handlePlayerDeath t).playerAlive = true
        rw [(handlePlayerDeath_effects t).2.2.1 hmode', ht_alive, halive]
      · rw [htail_alive]
        show (handlePlayerDeath t).playerAlive = true
        rw [(handlePlayerDeath_effects t).2.2.1 hmode', ht_alive, halive]

/-- Witness for C5: the `bash_center` attack of `midSwingEngine` advanced to
one frame before impact, blocked by the default CENTER shield. -/
theorem tick_impact_resolution_witness :
    (tick { midSwingEngine with
      state := { midSwingEngine.state with currentFrame := 124 } }).state.blocksPerformed
      = 1 ∧
    (tick { midSwingEngine with
      state := { midSwingEngine.state with currentFrame := 124 } }).state.playerAlive = true := by
  have h := tick_impact_resolution
    { midSwingEngine with state := { midSwingEngine.state with currentFrame := 124 } }
    { id := "bash_center", zone := 1, windupFrames := 100, activeFrames := 40,
      recoveryFrames := 30, damage := 1, isBlocking := true }
    rfl rfl rfl rfl rfl rfl (by decide)
  exact (h.2.1 rfl)

/-! ### C1: determinism modulo the construction timestamp -/

lemma stripTime_triggerVulnerability (s : CombatState) :
    triggerVulnerability (stripTime s) = stripTime (triggerVulnerability s) := rfl

lemma stripTime_dealDamageToBoss (d : Int) (s : CombatState) :
    dealDamageToBoss d (stripTime s) = stripTime (dealDamageToBoss d s) := rfl

lemma stripTime_handleParry (a : ℚ) (s : CombatState) :
    handleParry a (stripTime s) = stripTime (handleParry a s) := by
  unfold handleParry dealDamageToBoss triggerVulnerability stripTime
  dsimp only
  repeat' (first | split | dsimp only)
  all_goals first | rfl | contradiction

lemma stripTime_handleBlock (s : CombatState) :
    handleBlock (stripTime s) = stripTime (handleBlock s) := by
  unfold handleBlock triggerVulnerability stripTime
  dsimp only
  repeat' (first | split | dsimp only)
  all_goals first | rfl | contradiction

lemma stripTime_handlePlayerDeath (s : CombatState) :
    handlePlayerDeath (stripTime s) = stripTime (handlePlayerDeath s) := by
  unfold handlePlayerDeath stripTime
  dsimp only
  repeat' (first | split | dsimp only)
  all_goals first | rfl | contradiction

lemma stripTime_executeAttack (a : Option Attack) (s : CombatState) :
    executeAttack a (stripTime s) = stripTime (executeAttack a s) := rfl

lemma stripTime_processAttackCollision (s : CombatState) :
    processAttackCollision (stripTime s) = stripTime (processAttackCollision s) := by
  unfold processAttackCollision handleBlock handlePlayerDeath triggerVulnerability stripTime
  dsimp only
  repeat' (first | split | dsimp only)
  all_goals first | rfl | contradiction

lemma stripTime_processPlayerAttack (s : CombatState) :
    processPlayerAttack (stripTime s) = stripTime (processPlayerAttack s) := by
  unfold processPlayerAttack dealDamageToBoss stripTime
  dsimp only
  repeat' (first | split | dsimp only)
  all_goals first | rfl | contradiction

lemma stripTime_staggerDecayStep (s : CombatState) :
    staggerDecayStep (stripTime s) = stripTime (staggerDecayStep s) := by
  unfold staggerDecayStep stripTime
  dsimp only
  repeat' (first | split | dsimp only)
  all_goals first | rfl | contradiction

lemma stripTime_processVulnerability (s : CombatState) :
    processVulnerability (stripTime s) = stripTime (processVulnerability s) := by
  unfold processVulnerability stripTime
  dsimp only
  repeat' (first | split | dsimp only)
  all_goals first | rfl | contradiction

lemma stripTimeE_startBossAttack (e : Engine) :
    startBossAttack (stripTimeE e) = stripTimeE (startBossAttack e) := by
  unfold startBossAttack executeAttack stripTimeE stripTime
  dsimp only
  repeat' (first | split | dsimp only)
  all_goals first | rfl | contradiction

lemma stripTimeE_processBossAI (e : Engine) :
    processBossAI (stripTimeE e) = stripTimeE (processBossAI e) := by
  unfold processBossAI startBossAttack executeAttack stripTimeE stripTime
  dsimp only
  repeat' (first | split | dsimp only)
  all_goals first | rfl | contradiction

lemma stripTimeE_incFrameE (e : Engine) :
    incFrameE (stripTimeE e) = stripTimeE (incFrameE e) := rfl

lemma stripTimeE_collisionE (e : Engine) :
    collisionE (stripTimeE e) = stripTimeE (collisionE e) := by
  unfold collisionE stripTimeE
  dsimp only
  rw [stripTime_processAttackCollision]

lemma stripTimeE_playerAttackE (e : Engine) :
    playerAttackE (stripTimeE e) = stripTimeE (playerAttackE e) := by
  unfold playerAttackE stripTimeE
  dsimp only
  rw [stripTime_processPlayerAttack]

lemma stripTimeE_decayE (e : Engine) :
    decayE (stripTimeE e) = stripTimeE (decayE e) := by
  unfold decayE stripTimeE
  dsimp only
  rw [stripTime_staggerDecayStep]

lemma stripTimeE_vulnE (e : Engine) :
    vulnE (stripTimeE e) = stripTimeE (vulnE e) := by
  unfold vulnE stripTimeE
  dsimp only
  rw [stripTime_processVulnerability]

lemma stripTimeE_tick (e : Engine) :
    tick (stripTimeE e) = stripTimeE (tick e) := by
  unfold tick
  rw [show (stripTimeE e).state.playerAlive = e.state.playerAlive from rfl]
  split
  · rfl
  · rw [stripTimeE_incFrameE, stripTimeE_processBossAI, stripTimeE_collisionE,
        stripTimeE_playerAttackE, stripTimeE_decayE, stripTimeE_vulnE]

lemma stripTimeE_moveShield (z : Int) (e : Engine) :
    moveShield z (stripTimeE e) = stripTimeE (moveShield z e) := by
  unfold moveShield stripTimeE stripTime
  dsimp only
  repeat' (first | split | dsimp only)
  all_goals first | rfl | contradiction

lemma stripTimeE_attemptParry (z : Int) (a : ℚ) (e : Engine) :
    (attemptParry z a (stripTimeE e)).1 = stripTimeE (attemptParry z a e).1 := by
  unfold attemptParry handleParry dealDamageToBoss triggerVulnerability stripTimeE stripTime
  dsimp only
  repeat' (first | split | dsimp only)
  all_goals first | rfl | contradiction

lemma stripTimeE_playerAttack (e : Engine) :
    playerAttack (stripTimeE e) = stripTimeE (playerAttack e) := by
  unfold playerAttack stripTimeE stripTime
  dsimp only
  repeat' (first | split | dsimp only)
  all_goals first | rfl | contradiction

lemma stripTimeE_setPracticeAttack (id : String) (b : Bool) (e : Engine) :
    setPracticeAttack id b (stripTimeE e) = stripTimeE (setPracticeAttack id b e) := by
  unfold setPracticeAttack addId stripTimeE stripTime
  dsimp only
  repeat' (first | split | dsimp only)
  all_goals first | rfl | contradiction

lemma stripTimeE_forceAttack (id : String) (e : Engine) :
    forceAttack id (stripTimeE e) = stripTimeE (forceAttack id e) := by
  unfold forceAttack stripTimeE stripTime
  dsimp only
  repeat' (first | split | dsimp only)
  all_goals first | rfl | contradiction

lemma stripTimeE_applyStep (s : Step) (e : Engine) :
    applyStep s (stripTimeE e) = stripTimeE (applyStep s e) := by
  cases s with
  | tick => exact stripTimeE_tick e
  | moveShield z => exact stripTimeE_moveShield z e
  | attemptParry z a => exact stripTimeE_attemptParry z a e
  | playerAttack => exact stripTimeE_playerAttack e
  | setPracticeAttack id b => exact stripTimeE_setPracticeAttack id b e
  | forceAttack id => exact stripTimeE_forceAttack id e

lemma stripTimeE_runSteps (l : List Step) (e : Engine) :
    runSteps (stripTimeE e) l = stripTimeE (runSteps e l) := by
  induction l generalizing e with
  | nil => rfl
  | cons s rest ih =>
    show runSteps (applyStep s (stripTimeE e)) rest = _
    rw [stripTimeE_applyStep]
    exact ih (applyStep s e)

lemma stripTimeE_initEngine (seed bossMaxHP : Int) (mode : GameMode) (t : Int) :
    stripTimeE (initEngine seed bossMaxHP mode t) = initEngine seed bossMaxHP mode 0 := rfl

/-- C1 (amended): two engines constructed with the same seed, max HP and
mode and fed an identical sequence of tick/command calls produce state
snapshots that agree on every field except `runStartTime`, whatever the two
construction timestamps were; snapshots are byte-identical exactly when the
construction timestamps also coincide. -/
theorem determinism_modulo_construction_time (seed bossMaxHP : Int) (mode : GameMode)
    (t1 t2 : Int) (cmds : List Step) :
    stripTime (getState (runSteps (initEngine seed bossMaxHP mode t1) cmds)) =
    stripTime (getState (runSteps (initEngine seed bossMaxHP mode t2) cmds)) := by
  have h1 : ∀ t : Int, stripTime (getState (runSteps (initEngine seed bossMaxHP mode t) cmds))
      = getState (runSteps (initEngine seed bossMaxHP mode 0) cmds) := by
    intro t
    have h := stripTimeE_runSteps cmds (initEngine seed bossMaxHP mode t)
    rw [stripTimeE_initEngine] at h
    calc stripTime (getState (runSteps (initEngine seed bossMaxHP mode t) cmds))
        = getState (stripTimeE (runSteps (initEngine seed bossMaxHP mode t) cmds)) := rfl
      _ = getState (runSteps (initEngine seed bossMaxHP mode 0) cmds) := by rw [← h]
  rw [h1 t1, h1 t2]

/-- C1 counterexample: two engines constructed from identical arguments
(seed 42, max HP 10, standard mode) but at wall-clock instants 0 and 1
already return different `getState()` snapshots before any step, because the
snapshot includes the `runStartTime` field, which records `Date.now()`. -/
theorem determinism_counterexample :
    getState (initEngine 42 10 GameMode.standard 0) ≠
      getState (initEngine 42 10 GameMode.standard 1) := by
  intro h
  have h2 := congrArg CombatState.runStartTime h
  exact absurd h2 (by decide)

/-! ### C8 counterexample: a dead player's parry call is not logged -/

set_option maxRecDepth 40000 in
lemma deathRun_leg1 :
    runSteps (initEngine 0 10 GameMode.standard 0) (List.replicate 20 Step.tick)
      = cruisingAt 20 := by
  with_unfolding_all rfl

set_option maxRecDepth 40000 in
lemma deathRun_leg2 :
    runSteps (cruisingAt 20) (List.replicate 20 Step.tick) = cruisingAt 40 := by
  with_unfolding_all rfl

set_option maxRecDepth 40000 in
lemma deathRun_leg3 :
    runSteps (cruisingAt 40) (List.replicate 20 Step.tick) = cruisingAt 60 := by
  with_unfolding_all rfl

set_option maxRecDepth 40000 in
lemma deathRun_leg4 :
    runSteps (cruisingAt 60) (List.replicate 20 Step.tick) = cruisingAt 80 := by
  with_unfolding_all rfl

set_option maxRecDepth 40000 in
lemma deathRun_leg5 :
    runSteps (cruisingAt 80) (List.replicate 20 Step.tick) = cruisingAt 100 := by
  with_unfolding_all rfl

lemma deathRun_eq_legs :
    deathRun = runSteps (cruisingAt 100) (List.replicate 16 Step.tick) := by
  rw [deathRun, show (116 : Nat) = 20 + (20 + (20 + (20 + (20 + 16)))) from rfl]
  rw [List.replicate_add, runSteps_append, deathRun_leg1]
  rw [List.replicate_add, runSteps_append, deathRun_leg2]
  rw [List.replicate_add, runSteps_append, deathRun_leg3]
  rw [List.replicate_add, runSteps_append, deathRun_leg4]
  rw [List.replicate_add, runSteps_append, deathRun_leg5]

set_option maxRecDepth 40000 in
/-- C8 counterexample: in the seed-0 standard run the player is dead after
116 ticks, and an `attemptParry` call on that reachable engine returns false
and leaves the engine - in particular its input log - completely unchanged,
so not every `attemptParry` call appends a parry event. -/
theorem attemptParry_dead_call_not_logged :
    Reachable deathRun ∧
    deathRun.state.playerAlive = false ∧
    attemptParry 1 1 deathRun = (deathRun, false) ∧
    (attemptParry 1 1 deathRun).1.inputLog = deathRun.inputLog := by
  have h3 : attemptParry 1 1 deathRun = (deathRun, false) := by
    rw [deathRun_eq_legs]
    with_unfolding_all rfl
  refine ⟨?_, ?_, h3, by rw [h3]⟩
  · exact reachable_runSteps (Reachable.init 0 10 GameMode.standard 0) _
  · rw [deathRun_eq_legs]
    with_unfolding_all rfl

end CombatSys
